import Mathlib

/-!
Shallow embedding of the `ipfs_io` file registry
(`src/ipfs_io/files.py`, `src/ipfs_io/ipfs_io.py`).

The registry stores files in IPFS and keeps track of each file's CID in a
Cassandra table `files(filename TEXT PRIMARY KEY, timestamp TEXT, ipfs_cid TEXT)`.
We model:

* the metadata table as an association list from filename to row, with the
  conditional queries of `_insert_queries` / `_delete_queries` /
  `_select_queries` (`INSERT ... IF NOT EXISTS`, `DELETE ... IF EXISTS`,
  `UPDATE ... SET timestamp ... IF EXISTS`, point selects) as pure functions;
* Python values that can flow into the `timestamp` column as `TSVal`
  (the code passes either `str(time.time())`, a raw caller-supplied
  `int`/`float`, or the result of `get_timestamp`);
* external-call failures (Cassandra transport errors, `ipfs`/`ipfs-cluster-ctl`
  subprocess failures) through a `Faults` record: each registry operation takes
  the fault scenario as an argument and returns an `Except` result, the
  resulting table, and the ordered trace of external calls it attempted;
* Python exceptions as the inductive `Err`: `FAILED_METADATA` and
  `FAILED_FILE` from `ipfs_io.exceptions` (the module itself is not part of
  the sources; its two classes are plain exception types used by
  `files.py`), the `RuntimeError` raised by `_get_ipfs_cid` for a missing
  row (`files.py:204`), the `RuntimeError` raised by `_run_command` for a
  failing subprocess (`ipfs_io.py:22`), and `NameError`/`TypeError` runtime
  errors of the Python interpreter itself.
-/

namespace IpfsIo

/-- A Python value stored in (or passed for) the `timestamp` column.
`strnum q` stands for the Python string `str(x)` of a number `x` with value
`q` (e.g. `str(time.time())`); Python's float-to-string round-trip is
faithful, so we keep the numeric value. `int`/`float` are raw numerics that
`upload`/`link` pass through unchanged; `pynone` is Python `None`. -/
inductive TSVal where
  | strnum (q : ℚ)
  | int (n : ℤ)
  | float (q : ℚ)
  | pynone
  deriving DecidableEq, Repr

/-- Is the value a Python string (string-serialized number)? -/
def TSVal.isStr : TSVal → Bool
  | .strnum _ => true
  | _ => false

/-- One row of the `files` table: `(timestamp, ipfs_cid)`, keyed by filename. -/
structure Row where
  ts : TSVal
  cid : String
  deriving DecidableEq, Repr

/-- The `files` table (filename is the primary key). -/
abbrev Table := List (String × Row)

/-- Point lookup by primary key. -/
def lookupRow : Table → String → Option Row
  | [], _ => none
  | p :: t, fn => if p.1 = fn then some p.2 else lookupRow t fn

/-- `INSERT INTO files ... IF NOT EXISTS` (files.py `_insert_queries`):
compare-and-set; returns the new table and whether the insert applied. -/
def insertIfAbsent (t : Table) (fn : String) (ts : TSVal) (cid : String) :
    Table × Bool :=
  match lookupRow t fn with
  | some _ => (t, false)
  | none => ((fn, ⟨ts, cid⟩) :: t, true)

/-- Rows of `t` whose key is not `fn`. -/
def removeRow : Table → String → Table
  | [], _ => []
  | p :: t, fn => if p.1 = fn then removeRow t fn else p :: removeRow t fn

/-- `DELETE FROM files WHERE filename=? IF EXISTS` (files.py `_delete_queries`). -/
def deleteIfPresent (t : Table) (fn : String) : Table × Bool :=
  (removeRow t fn, (lookupRow t fn).isSome)

/-- Replace the row at key `fn` (used by the conditional update). -/
def setRow (t : Table) (fn : String) (r : Row) : Table :=
  t.map fun p => if p.1 = fn then (fn, r) else p

/-- `UPDATE files SET timestamp=? WHERE filename=? IF EXISTS`
(files.py `_insert_queries`). -/
def updateIfExists (t : Table) (fn : String) (ts : TSVal) : Table × Bool :=
  match lookupRow t fn with
  | none => (t, false)
  | some r => (setRow t fn ⟨ts, r.cid⟩, true)

/-- Python exceptions that can escape the registry operations. -/
inductive Err where
  /-- `FAILED_METADATA` (from `ipfs_io.exceptions`); its message names the
  query and the `ipfs_fn` key, so we carry both. -/
  | failedMetadata (query : String) (key : String)
  /-- `FAILED_FILE` raised by `download` (files.py:228); the message carries
  the cid and the output filename. -/
  | failedFile (cid : String) (ofn : String)
  /-- The `RuntimeError("{ipfs_fn} file does not exists!")` raised by
  `_get_ipfs_cid` (files.py:204) for a missing row — the spec's
  `FileNotFound{filename}`. -/
  | fileNotFound (fn : String)
  /-- The `RuntimeError` raised by `_run_command` (ipfs_io.py:22) when an
  `ipfs` / `ipfs-cluster-ctl` subprocess exits nonzero. -/
  | cmdFailed
  /-- A Python `NameError` for an unbound variable name. -/
  | nameError (nm : String)
  /-- A Python `TypeError` (e.g. `float(None)`). -/
  | typeError
  deriving DecidableEq, Repr

/-- `float(x)` applied to a stored timestamp value (files.py:173).
`strnum` values are string serializations of numbers, so parsing recovers
the number; `float(None)` is a `TypeError`. -/
def pyFloat : TSVal → Except Err ℚ
  | .strnum q => .ok q
  | .int n => .ok (n : ℚ)
  | .float q => .ok q
  | .pynone => .error .typeError

/-- A Python value passed as the optional `timestamp` argument of
`upload` / `link`. -/
inductive PyArg where
  | pynone
  | int (n : ℤ)
  | float (q : ℚ)
  | str (s : String)
  deriving DecidableEq, Repr

/-- Python truthiness of the argument (`not timestamp`). -/
def truthy : PyArg → Bool
  | .pynone => false
  | .int n => n ≠ 0
  | .float q => q ≠ 0
  | .str s => s ≠ ""

/-- `isinstance(timestamp, (int, float))`. -/
def isNumeric : PyArg → Bool
  | .int _ => true
  | .float _ => true
  | _ => false

/-- The timestamp-defaulting guard shared by `upload` (files.py:250-252) and
`link` (files.py:279-281): `if not timestamp or not
isinstance(timestamp,(int,float)): timestamp = str(time.time())`.
A truthy numeric argument passes through unchanged (raw, not stringified);
everything else is replaced by the stringified current time `now`. -/
def resolveTs (now : ℚ) : PyArg → TSVal
  | .int n => if n = 0 then .strnum now else .int n
  | .float q => if q = 0 then .strnum now else .float q
  | _ => .strnum now

/-- `-1 == timestamp` (files.py:283) on the resolved timestamp value:
Python compares `-1` to a string as unequal, no error. -/
def tsIsNeg1 : TSVal → Bool
  | .int n => n = -1
  | .float q => q = -1
  | _ => false

/-- Which external calls fail in a given scenario (fault injection for the
Cassandra session and the `ipfs`/`ipfs-cluster-ctl` subprocesses). -/
structure Faults where
  putFails : Bool
  getFails : Bool
  unpinFails : Bool
  insertFails : Bool
  deleteFails : Bool
  updateFails : Bool
  selectCidFails : Bool
  selectTsFails : Bool
  selectContainsFails : Bool
  deriving DecidableEq, Repr

/-- The fault-free scenario. -/
def noFaults : Faults := ⟨false, false, false, false, false, false, false, false, false⟩

/-- Only the conditional delete of the metadata row fails. -/
def deleteFault : Faults := ⟨false, false, false, false, true, false, false, false, false⟩

/-- Only `ipfs-cluster-ctl pin rm` (unpin) fails. -/
def unpinFault : Faults := ⟨false, false, true, false, false, false, false, false, false⟩

/-- Only the conditional insert of the metadata row fails. -/
def insertFault : Faults := ⟨false, false, false, true, false, false, false, false, false⟩

/-- Only `ipfs-cluster-ctl add` (the content put) fails. -/
def putFault : Faults := ⟨true, false, false, false, false, false, false, false, false⟩

/-- An external call attempted by a registry operation, in order.
Events record that the call was issued, whether or not it succeeded. -/
inductive Event where
  | selectCid (fn : String)
  | selectTs (fn : String)
  | selectContains (fn : String)
  | insertFiles (fn : String)
  | deleteFiles (fn : String)
  | updateTs (fn : String)
  | ipfsPut (ifn : String)
  | ipfsGet (cid : String) (ofn : String)
  | ipfsUnpin (cid : String)
  deriving DecidableEq, Repr

/-- Result of a registry operation: the Python return value or the escaped
exception, the table afterwards, and the trace of attempted external calls. -/
structure OpResult (α : Type) where
  res : Except Err α
  table : Table
  events : List Event

/-- `IPFS_Files.__contains__` (files.py:143-155): `SELECT count(*)` and
compare with 0; a transport error becomes `FAILED_METADATA`. -/
def contains (fa : Faults) (t : Table) (fn : String) : Except Err Bool :=
  if fa.selectContainsFails then .error (.failedMetadata "select_contains" fn)
  else .ok (lookupRow t fn).isSome

/-- `IPFS_Files.get_timestamp` (files.py:158-173): select the timestamp,
return `None` when the row is absent, else `float` of the stored string.
The `float` call sits outside the `try`, so its errors escape unwrapped. -/
def get_timestamp (fa : Faults) (t : Table) (fn : String) :
    Except Err (Option ℚ) :=
  if fa.selectTsFails then .error (.failedMetadata "select_timestamp" fn)
  else
    match lookupRow t fn with
    | none => .ok none
    | some r =>
      match pyFloat r.ts with
      | .ok q => .ok (some q)
      | .error e => .error e

/-- `IPFS_Files.update_timestamp` (files.py:176-188): conditional update of
the timestamp to `str(time.time())`; the applied flag of the `IF EXISTS`
update is discarded and the function returns `True` unconditionally. -/
def update_timestamp (fa : Faults) (now : ℚ) (t : Table) (fn : String) :
    OpResult Bool :=
  if fa.updateFails then
    ⟨.error (.failedMetadata "update_timestamp" fn), t, [.updateTs fn]⟩
  else
    ⟨.ok true, (updateIfExists t fn (.strnum now)).1, [.updateTs fn]⟩

/-- `IPFS_Files._get_ipfs_cid` (files.py:191-208): select the cid; raise
`FAILED_METADATA` on query failure, `RuntimeError` (file-not-found) when
the row is absent. -/
def get_ipfs_cid (fa : Faults) (t : Table) (fn : String) : Except Err String :=
  if fa.selectCidFails then .error (.failedMetadata "select_ipfs_cid" fn)
  else
    match lookupRow t fn with
    | none => .error (.fileNotFound fn)
    | some r => .ok r.cid

/-- `IPFS_Files.download` (files.py:211-237): resolve the cid, then fetch via
`download_ipfs`; a fetch failure is wrapped as `FAILED_FILE`. Metadata is
never mutated. -/
def download (fa : Faults) (t : Table) (fn ofn : String) : OpResult Unit :=
  match get_ipfs_cid fa t fn with
  | .error e => ⟨.error e, t, [.selectCid fn]⟩
  | .ok cid =>
    if fa.getFails then
      ⟨.error (.failedFile cid ofn), t, [.selectCid fn, .ipfsGet cid ofn]⟩
    else
      ⟨.ok (), t, [.selectCid fn, .ipfsGet cid ofn]⟩

/-- `IPFS_Files.upload` (files.py:240-267): resolve the timestamp, `put` the
file via `upload_ipfs` (its `RuntimeError` escapes unwrapped — there is no
`try` around it), then conditional insert; an insert transport failure is
wrapped as `FAILED_METADATA`. `newCid` is the cid the backend returns for
the uploaded content. -/
def upload (fa : Faults) (now : ℚ) (newCid : String) (t : Table)
    (ifn fn : String) (tsArg : PyArg) : OpResult Unit :=
  let ts := resolveTs now tsArg
  if fa.putFails then ⟨.error .cmdFailed, t, [.ipfsPut ifn]⟩
  else if fa.insertFails then
    ⟨.error (.failedMetadata "insert_files" fn), t,
      [.ipfsPut ifn, .insertFiles fn]⟩
  else
    ⟨.ok (), (insertIfAbsent t fn ts newCid).1, [.ipfsPut ifn, .insertFiles fn]⟩

/-- `IPFS_Files.link` (files.py:270-299): resolve the timestamp with the same
guard as `upload`; if the resolved value equals `-1` it is the copy-source
sentinel and is replaced by `get_timestamp(src)`; resolve the source cid;
then conditional insert of the destination row.

On an insert transport failure the `except` block at files.py:292-299
formats its message with the name `ipfs_fn`, which is not bound in `link`
(the locals are `src`, `dst`, `timestamp`, `ipfs_cid`), so the Python
interpreter raises `NameError` while handling the original exception —
`FAILED_METADATA` is never constructed on this path. -/
def link (fa : Faults) (now : ℚ) (t : Table) (src dst : String)
    (tsArg : PyArg) : OpResult Unit :=
  let ts0 := resolveTs now tsArg
  let tsRes : Except Err (TSVal × List Event) :=
    if tsIsNeg1 ts0 then
      match get_timestamp fa t src with
      | .error e => .error e
      | .ok none => .ok (.pynone, [.selectTs src])
      | .ok (some q) => .ok (.float q, [.selectTs src])
    else .ok (ts0, [])
  match tsRes with
  | .error e => ⟨.error e, t, [.selectTs src]⟩
  | .ok (ts, ev0) =>
    match get_ipfs_cid fa t src with
    | .error e => ⟨.error e, t, ev0 ++ [.selectCid src]⟩
    | .ok cid =>
      if fa.insertFails then
        ⟨.error (.nameError "ipfs_fn"), t,
          ev0 ++ [.selectCid src, .insertFiles dst]⟩
      else
        ⟨.ok (), (insertIfAbsent t dst ts cid).1,
          ev0 ++ [.selectCid src, .insertFiles dst]⟩

/-- `IPFS_Files.delete` (files.py:302-321): resolve the cid (raises for a
missing row), conditional delete of the metadata row (`FAILED_METADATA` on
transport failure — `unpin_ipfs` is then never reached), and only after a
successful delete call `unpin_ipfs`. The unpin call is not wrapped in any
`try`: a failing `ipfs-cluster-ctl pin rm` raises `RuntimeError` out of
`delete` itself. -/
def delete (fa : Faults) (t : Table) (fn : String) : OpResult Unit :=
  match get_ipfs_cid fa t fn with
  | .error e => ⟨.error e, t, [.selectCid fn]⟩
  | .ok cid =>
    if fa.deleteFails then
      ⟨.error (.failedMetadata "delete_files" fn), t,
        [.selectCid fn, .deleteFiles fn]⟩
    else
      let t2 := (deleteIfPresent t fn).1
      if fa.unpinFails then
        ⟨.error .cmdFailed, t2, [.selectCid fn, .deleteFiles fn, .ipfsUnpin cid]⟩
      else
        ⟨.ok (), t2, [.selectCid fn, .deleteFiles fn, .ipfsUnpin cid]⟩

/-! ### Helper lemmas about the table operations -/

theorem lookup_removeRow_self (t : Table) (fn : String) :
    lookupRow (removeRow t fn) fn = none := by
  induction t with
  | nil => rfl
  | cons p t ih =>
    by_cases h : p.1 = fn
    · simpa [removeRow, h] using ih
    · simpa [removeRow, lookupRow, h] using ih

theorem lookup_removeRow_ne (t : Table) (fn g : String) (hne : g ≠ fn) :
    lookupRow (removeRow t fn) g = lookupRow t g := by
  induction t with
  | nil => rfl
  | cons p t ih =>
    by_cases h : p.1 = fn
    · have hfg : fn ≠ g := fun hh => hne hh.symm
      simp [removeRow, lookupRow, h, hfg, ih]
    · simp only [removeRow, if_neg h, lookupRow, ih]

theorem lookup_setRow_self (t : Table) (fn : String) (r0 r : Row)
    (h : lookupRow t fn = some r0) :
    lookupRow (setRow t fn r) fn = some r := by
  induction t with
  | nil => simp [lookupRow] at h
  | cons p t ih =>
    by_cases h1 : p.1 = fn
    · simp [setRow, lookupRow, h1]
    · have h2 : lookupRow t fn = some r0 := by
        simpa [lookupRow, h1] using h
      have h3 := ih h2
      simp only [setRow, List.map_cons] at h3 ⊢
      simp [lookupRow, h1, h3]

/-! ### Concrete tables for witnesses and counterexamples -/

/-- A one-row table: `"a" ↦ (str(1), "Qm1")`. -/
def tA : Table := [("a", ⟨.strnum 1, "Qm1"⟩)]

/-! ### Claims -/

/-- Claim C1: for every filename present in the metadata table, `delete`
first resolves its content id, then runs the conditional metadata delete,
and calls unpin only after the metadata delete succeeds; if the metadata
delete fails, `delete` raises `FAILED_METADATA` and unpin is never
invoked. -/
theorem delete_meta_before_unpin (t : Table) (fn : String) (r : Row)
    (hrow : lookupRow t fn = some r) :
    (∀ fa : Faults, fa.selectCidFails = false → fa.deleteFails = true →
      (delete fa t fn).res = .error (.failedMetadata "delete_files" fn) ∧
      ∀ c, Event.ipfsUnpin c ∉ (delete fa t fn).events) ∧
    (delete noFaults t fn).events
      = [.selectCid fn, .deleteFiles fn, .ipfsUnpin r.cid] := by
  constructor
  · intro fa h1 h2
    simp [delete, get_ipfs_cid, h1, h2, hrow]
  · simp [delete, get_ipfs_cid, noFaults, hrow]

/-- Witness for C1: the one-row table, with a failing metadata delete and
with no faults. -/
theorem delete_meta_before_unpin_witness :
    lookupRow tA "a" = some ⟨.strnum 1, "Qm1"⟩ ∧
    ((∀ fa : Faults, fa.selectCidFails = false → fa.deleteFails = true →
      (delete fa tA "a").res = .error (.failedMetadata "delete_files" "a") ∧
      ∀ c, Event.ipfsUnpin c ∉ (delete fa tA "a").events) ∧
    (delete noFaults tA "a").events
      = [.selectCid "a", .deleteFiles "a", .ipfsUnpin "Qm1"]) :=
  ⟨rfl, delete_meta_before_unpin tA "a" ⟨.strnum 1, "Qm1"⟩ rfl⟩

/-- Claim C2, counterexample: with the metadata row removed successfully but
the unpin subprocess failing, `delete` does not return normally — the
`RuntimeError` of `_run_command` (there is no `try` around `unpin_ipfs` in
`delete`) escapes to the caller. -/
theorem delete_unpin_failure_escalates_cex :
    (delete unpinFault tA "a").res = .error .cmdFailed ∧
    (delete unpinFault tA "a").res ≠ .ok () := by
  refine ⟨rfl, ?_⟩
  rw [show (delete unpinFault tA "a").res = .error .cmdFailed from rfl]
  exact fun h => Except.noConfusion h

/-- Claim C2 (amended): once the metadata delete has succeeded, a failure of
the subsequent unpin call is escalated to the caller of `delete` as the
backend's `RuntimeError`; the metadata row is nonetheless already removed,
and the unpin call was attempted. -/
theorem delete_unpin_failure_propagates (fa : Faults) (t : Table)
    (fn : String) (r : Row) (h1 : fa.selectCidFails = false)
    (h2 : fa.deleteFails = false) (h3 : fa.unpinFails = true)
    (hrow : lookupRow t fn = some r) :
    (delete fa t fn).res = .error .cmdFailed ∧
    lookupRow (delete fa t fn).table fn = none ∧
    Event.ipfsUnpin r.cid ∈ (delete fa t fn).events := by
  simp [delete, get_ipfs_cid, h1, h2, h3, hrow, deleteIfPresent,
    lookup_removeRow_self]

/-- Witness for the amended C2 at the one-row table. -/
theorem delete_unpin_failure_propagates_witness :
    unpinFault.selectCidFails = false ∧ unpinFault.deleteFails = false ∧
    unpinFault.unpinFails = true ∧ lookupRow tA "a" = some ⟨.strnum 1, "Qm1"⟩ ∧
    ((delete unpinFault tA "a").res = .error .cmdFailed ∧
     lookupRow (delete unpinFault tA "a").table "a" = none ∧
     Event.ipfsUnpin "Qm1" ∈ (delete unpinFault tA "a").events) :=
  ⟨rfl, rfl, rfl, rfl,
    delete_unpin_failure_propagates unpinFault tA "a" ⟨.strnum 1, "Qm1"⟩
      rfl rfl rfl rfl⟩

/-- Claim C3: if the content backend's put fails, `upload` aborts with the
backend's error, performs no metadata mutation (the table is unchanged and
no insert is attempted), and `Exists` stays false for a filename that had
no row. -/
theorem upload_put_failure_no_metadata (fa : Faults) (now : ℚ) (cid : String)
    (t : Table) (ifn fn : String) (a : PyArg) (hput : fa.putFails = true) :
    (upload fa now cid t ifn fn a).res = .error .cmdFailed ∧
    (upload fa now cid t ifn fn a).table = t ∧
    (upload fa now cid t ifn fn a).events = [.ipfsPut ifn] ∧
    (lookupRow t fn = none →
      contains noFaults (upload fa now cid t ifn fn a).table fn
        = .ok false) := by
  refine ⟨by simp [upload, hput], by simp [upload, hput],
    by simp [upload, hput], fun habs => ?_⟩
  simp [upload, hput, contains, noFaults, habs]

/-- Witness for C3: failing put over the empty table. -/
theorem upload_put_failure_no_metadata_witness :
    putFault.putFails = true ∧
    ((upload putFault 7 "QmN" [] "local.bin" "f" .pynone).res
        = .error .cmdFailed ∧
     (upload putFault 7 "QmN" [] "local.bin" "f" .pynone).table = [] ∧
     (upload putFault 7 "QmN" [] "local.bin" "f" .pynone).events
        = [.ipfsPut "local.bin"] ∧
     (lookupRow ([] : Table) "f" = none →
      contains noFaults (upload putFault 7 "QmN" [] "local.bin" "f" .pynone).table
        "f" = .ok false)) :=
  ⟨rfl, upload_put_failure_no_metadata putFault 7 "QmN" [] "local.bin" "f"
    .pynone rfl⟩

/-- Claim C4 (code bug, evaluated at the failing input): when `link`'s
conditional insert fails at the transport level, the `except` block at
files.py:292-299 references the name `ipfs_fn`, which is unbound in `link`,
while formatting the `FAILED_METADATA` message — so the call raises a
Python `NameError`, not the typed metadata-mutation error carrying
operation, key and cause that the spec (and `link`'s own
`raise FAILED_METADATA` statement) intends. -/
theorem link_insert_failure_raises_nameerror :
    (link insertFault 2 tA "a" "b" .pynone).res
      = .error (.nameError "ipfs_fn") := rfl

/-- Claim C5, counterexample: on the empty table `update_timestamp` still
returns `True` although no row existed to update — the returned boolean is
not "whether the conditional update applied". -/
theorem update_timestamp_true_when_absent_cex :
    lookupRow ([] : Table) "x" = none ∧
    (update_timestamp noFaults 5 [] "x").res = .ok true := ⟨rfl, rfl⟩

/-- Claim C5 (amended): `update_timestamp` sets an existing row's timestamp
to the stringified current time, does not raise and leaves the table
unchanged when the row is absent, and returns `True` unconditionally —
the return value does not reflect whether the conditional update
applied. -/
theorem update_timestamp_spec (fa : Faults) (now : ℚ) (t : Table)
    (fn : String) (h : fa.updateFails = false) :
    (update_timestamp fa now t fn).res = .ok true ∧
    (lookupRow t fn = none → (update_timestamp fa now t fn).table = t) ∧
    (∀ r : Row, lookupRow t fn = some r →
      lookupRow (update_timestamp fa now t fn).table fn
        = some ⟨.strnum now, r.cid⟩) := by
  refine ⟨by simp [update_timestamp, h], fun habs => ?_, fun r hrow => ?_⟩
  · simp [update_timestamp, h, updateIfExists, habs]
  · simp [update_timestamp, h, updateIfExists, hrow,
      lookup_setRow_self t fn r ⟨.strnum now, r.cid⟩ hrow]

/-- Witness for the amended C5 at the one-row table. -/
theorem update_timestamp_spec_witness :
    noFaults.updateFails = false ∧
    ((update_timestamp noFaults 5 tA "a").res = .ok true ∧
     (lookupRow tA "a" = none → (update_timestamp noFaults 5 tA "a").table = tA) ∧
     (∀ r : Row, lookupRow tA "a" = some r →
       lookupRow (update_timestamp noFaults 5 tA "a").table "a"
         = some ⟨.strnum 5, r.cid⟩)) :=
  ⟨rfl, update_timestamp_spec noFaults 5 tA "a" rfl⟩

/-- Claim C6, counterexample: uploading with caller-supplied numeric
timestamp `5` stores the raw number in the created row — not a
string-serialized number. -/
theorem upload_numeric_ts_not_string_cex :
    lookupRow (upload noFaults 100 "Qm1" [] "ifn" "f" (.int 5)).table "f"
      = some ⟨.int 5, "Qm1"⟩ ∧
    TSVal.isStr (.int 5) = false := ⟨rfl, rfl⟩

/-- Claim C6 (amended): the timestamp `upload` stores is the stringified
current time when the caller's timestamp is absent, falsy (numeric `0`,
empty string, `None`), or non-numeric; a truthy numeric timestamp is
stored unchanged as the raw number — it is not stringified. -/
theorem upload_timestamp_resolution (fa : Faults) (now : ℚ) (cid : String)
    (t : Table) (ifn fn : String) (hp : fa.putFails = false)
    (hi : fa.insertFails = false) (habs : lookupRow t fn = none) :
    (∀ n : ℤ, n ≠ 0 →
      lookupRow (upload fa now cid t ifn fn (.int n)).table fn
        = some ⟨.int n, cid⟩) ∧
    (∀ q : ℚ, q ≠ 0 →
      lookupRow (upload fa now cid t ifn fn (.float q)).table fn
        = some ⟨.float q, cid⟩) ∧
    (∀ a : PyArg, truthy a = false ∨ isNumeric a = false →
      lookupRow (upload fa now cid t ifn fn a).table fn
        = some ⟨.strnum now, cid⟩) := by
  refine ⟨fun n hn => ?_, fun q hq => ?_, fun a ha => ?_⟩
  · simp [upload, hp, hi, resolveTs, hn, insertIfAbsent, habs, lookupRow]
  · simp [upload, hp, hi, resolveTs, hq, insertIfAbsent, habs, lookupRow]
  · match a with
    | .pynone =>
      simp [upload, hp, hi, resolveTs, insertIfAbsent, habs, lookupRow]
    | .str s =>
      simp [upload, hp, hi, resolveTs, insertIfAbsent, habs, lookupRow]
    | .int n =>
      have hn : n = 0 := by
        rcases ha with h | h
        · simpa [truthy] using h
        · simp [isNumeric] at h
      simp [upload, hp, hi, resolveTs, hn, insertIfAbsent, habs, lookupRow]
    | .float q =>
      have hq : q = 0 := by
        rcases ha with h | h
        · simpa [truthy] using h
        · simp [isNumeric] at h
      simp [upload, hp, hi, resolveTs, hq, insertIfAbsent, habs, lookupRow]

/-- Witness for the amended C6 over the empty table. -/
theorem upload_timestamp_resolution_witness :
    noFaults.putFails = false ∧ noFaults.insertFails = false ∧
    lookupRow ([] : Table) "f" = none ∧
    ((∀ n : ℤ, n ≠ 0 →
       lookupRow (upload noFaults 3 "QmW" [] "i" "f" (.int n)).table "f"
         = some ⟨.int n, "QmW"⟩) ∧
     (∀ q : ℚ, q ≠ 0 →
       lookupRow (upload noFaults 3 "QmW" [] "i" "f" (.float q)).table "f"
         = some ⟨.float q, "QmW"⟩) ∧
     (∀ a : PyArg, truthy a = false ∨ isNumeric a = false →
       lookupRow (upload noFaults 3 "QmW" [] "i" "f" a).table "f"
         = some ⟨.strnum 3, "QmW"⟩)) :=
  ⟨rfl, rfl, rfl,
    upload_timestamp_resolution noFaults 3 "QmW" [] "i" "f" rfl rfl rfl⟩

/-- Claim C7: for a filename with no metadata row, `download` and `delete`
raise the not-found error of `_get_ipfs_cid` before attempting any mutation
or backend call (the only attempted external call is the cid select, and
the table is unchanged), while `get_timestamp` returns the absent result —
not an error and not a default value. -/
theorem not_found_semantics (fa : Faults) (t : Table) (fn ofn : String)
    (h1 : fa.selectCidFails = false) (h2 : fa.selectTsFails = false)
    (habs : lookupRow t fn = none) :
    (download fa t fn ofn).res = .error (.fileNotFound fn) ∧
    (download fa t fn ofn).table = t ∧
    (download fa t fn ofn).events = [.selectCid fn] ∧
    (delete fa t fn).res = .error (.fileNotFound fn) ∧
    (delete fa t fn).table = t ∧
    (delete fa t fn).events = [.selectCid fn] ∧
    get_timestamp fa t fn = .ok none := by
  simp [download, delete, get_ipfs_cid, get_timestamp, h1, h2, habs]

/-- Witness for C7: the missing filename on the one-row table. -/
theorem not_found_semantics_witness :
    noFaults.selectCidFails = false ∧ noFaults.selectTsFails = false ∧
    lookupRow tA "missing" = none ∧
    ((download noFaults tA "missing" "out").res
        = .error (.fileNotFound "missing") ∧
     (download noFaults tA "missing" "out").table = tA ∧
     (download noFaults tA "missing" "out").events = [.selectCid "missing"] ∧
     (delete noFaults tA "missing").res = .error (.fileNotFound "missing") ∧
     (delete noFaults tA "missing").table = tA ∧
     (delete noFaults tA "missing").events = [.selectCid "missing"] ∧
     get_timestamp noFaults tA "missing" = .ok none) :=
  ⟨rfl, rfl, rfl, not_found_semantics noFaults tA "missing" "out" rfl rfl rfl⟩

/-- Claim C8: once a metadata row exists for a filename, a second `upload`
with the same filename — any content, any timestamp — leaves the table, and
in particular the stored content id, unchanged: the conditional insert is a
no-op on an existing row and reports `applied = false`. -/
theorem upload_idempotent_no_overwrite (fa : Faults) (now : ℚ)
    (cid2 : String) (t : Table) (ifn fn : String) (a : PyArg) (r : Row)
    (hp : fa.putFails = false) (hi : fa.insertFails = false)
    (hrow : lookupRow t fn = some r) :
    (upload fa now cid2 t ifn fn a).res = .ok () ∧
    (upload fa now cid2 t ifn fn a).table = t ∧
    lookupRow (upload fa now cid2 t ifn fn a).table fn = some r ∧
    (insertIfAbsent t fn (resolveTs now a) cid2).2 = false := by
  simp [upload, hp, hi, insertIfAbsent, hrow]

/-- The table produced by a first successful upload of `"f"`. -/
def tF : Table := (upload noFaults 1 "Qm1" [] "i1" "f" .pynone).table

/-- Witness for C8: a first upload creates the row, a second upload with
different content and timestamp leaves it unchanged. -/
theorem upload_idempotent_no_overwrite_witness :
    noFaults.putFails = false ∧ noFaults.insertFails = false ∧
    lookupRow tF "f" = some ⟨.strnum 1, "Qm1"⟩ ∧
    ((upload noFaults 2 "Qm2" tF "i2" "f" (.int 9)).res = .ok () ∧
     (upload noFaults 2 "Qm2" tF "i2" "f" (.int 9)).table = tF ∧
     lookupRow (upload noFaults 2 "Qm2" tF "i2" "f" (.int 9)).table "f"
       = some ⟨.strnum 1, "Qm1"⟩ ∧
     (insertIfAbsent tF "f" (resolveTs 2 (.int 9)) "Qm2").2 = false) :=
  ⟨rfl, rfl, rfl,
    upload_idempotent_no_overwrite noFaults 2 "Qm2" tF "i2" "f" (.int 9)
      ⟨.strnum 1, "Qm1"⟩ rfl rfl rfl⟩

/-- In the fault-free scenario, `link` on an existing source whose stored
timestamp is not `None` succeeds and its resulting table is the conditional
insert of the destination with the source's cid (for some timestamp value,
depending on the sentinel path taken). -/
theorem link_ok_of_src (now : ℚ) (t : Table) (a b : String) (ra : Row)
    (arg : PyArg) (ha : lookupRow t a = some ra) (hts : ra.ts ≠ .pynone) :
    ∃ ts : TSVal, (link noFaults now t a b arg).res = .ok () ∧
      (link noFaults now t a b arg).table
        = (insertIfAbsent t b ts ra.cid).1 := by
  have hq : ∃ q : ℚ, pyFloat ra.ts = .ok q := by
    cases h : ra.ts with
    | strnum q => exact ⟨q, rfl⟩
    | int n => exact ⟨(n : ℚ), rfl⟩
    | float q => exact ⟨q, rfl⟩
    | pynone => exact absurd h hts
  obtain ⟨q, hq⟩ := hq
  cases hneg : tsIsNeg1 (resolveTs now arg) with
  | true =>
    exact ⟨.float q, by
      simp [link, hneg, get_timestamp, noFaults, ha, hq, get_ipfs_cid], by
      simp [link, hneg, get_timestamp, noFaults, ha, hq, get_ipfs_cid]⟩
  | false =>
    exact ⟨resolveTs now arg, by
      simp [link, hneg, get_ipfs_cid, noFaults, ha], by
      simp [link, hneg, get_ipfs_cid, noFaults, ha]⟩

/-- Claim C9: after `link a b` creates `b` as an alias of `a`, `delete a`
removes only `a`'s metadata row: `b`'s row is unchanged and still resolves
to the shared content id, even though the shared content was unpinned by
the delete. -/
theorem link_then_delete_frame (now : ℚ) (t : Table) (a b : String)
    (ra : Row) (arg : PyArg) (ha : lookupRow t a = some ra)
    (hb : lookupRow t b = none) (hts : ra.ts ≠ .pynone) :
    (link noFaults now t a b arg).res = .ok () ∧
    ∃ ts : TSVal,
      lookupRow (link noFaults now t a b arg).table b = some ⟨ts, ra.cid⟩ ∧
      (delete noFaults (link noFaults now t a b arg).table a).res = .ok () ∧
      lookupRow (delete noFaults (link noFaults now t a b arg).table a).table a
        = none ∧
      lookupRow (delete noFaults (link noFaults now t a b arg).table a).table b
        = some ⟨ts, ra.cid⟩ ∧
      Event.ipfsUnpin ra.cid
        ∈ (delete noFaults (link noFaults now t a b arg).table a).events := by
  obtain ⟨ts, hres, htab⟩ := link_ok_of_src now t a b ra arg ha hts
  have hab : a ≠ b := fun h => by rw [h, hb] at ha; exact Option.noConfusion ha
  have hba : b ≠ a := fun h => hab h.symm
  have htab' : (link noFaults now t a b arg).table = (b, ⟨ts, ra.cid⟩) :: t := by
    rw [htab]; simp [insertIfAbsent, hb]
  have hl1 : lookupRow ((b, (⟨ts, ra.cid⟩ : Row)) :: t) a = some ra := by
    simp [lookupRow, hba, ha]
  have hl2 : lookupRow ((b, (⟨ts, ra.cid⟩ : Row)) :: t) b
      = some ⟨ts, ra.cid⟩ := by
    simp [lookupRow]
  refine ⟨hres, ts, ?_, ?_, ?_, ?_, ?_⟩
  · rw [htab']; exact hl2
  · rw [htab']
    simp [delete, get_ipfs_cid, noFaults, hl1, deleteIfPresent]
  · rw [htab']
    simp [delete, get_ipfs_cid, noFaults, hl1, deleteIfPresent,
      lookup_removeRow_self]
  · rw [htab']
    simp only [delete, get_ipfs_cid, noFaults, hl1, deleteIfPresent]
    simpa [lookup_removeRow_ne _ _ _ hba] using hl2
  · rw [htab']
    simp [delete, get_ipfs_cid, noFaults, hl1, deleteIfPresent]

/-- Witness for C9: link `"b"` to the file `"a"` of the one-row table, then
delete `"a"`. -/
theorem link_then_delete_frame_witness :
    lookupRow tA "a" = some ⟨.strnum 1, "Qm1"⟩ ∧
    lookupRow tA "b" = none ∧
    (⟨.strnum 1, "Qm1"⟩ : Row).ts ≠ .pynone ∧
    ((link noFaults 4 tA "a" "b" .pynone).res = .ok () ∧
     ∃ ts : TSVal,
      lookupRow (link noFaults 4 tA "a" "b" .pynone).table "b"
        = some ⟨ts, "Qm1"⟩ ∧
      (delete noFaults (link noFaults 4 tA "a" "b" .pynone).table "a").res
        = .ok () ∧
      lookupRow
        (delete noFaults (link noFaults 4 tA "a" "b" .pynone).table "a").table
        "a" = none ∧
      lookupRow
        (delete noFaults (link noFaults 4 tA "a" "b" .pynone).table "a").table
        "b" = some ⟨ts, "Qm1"⟩ ∧
      Event.ipfsUnpin "Qm1"
        ∈ (delete noFaults (link noFaults 4 tA "a" "b" .pynone).table
            "a").events) :=
  ⟨rfl, rfl, fun h => TSVal.noConfusion h,
    link_then_delete_frame 4 tA "a" "b" ⟨.strnum 1, "Qm1"⟩ .pynone rfl rfl
      (fun h => TSVal.noConfusion h)⟩

/-- A table whose row `"a"` stores the raw numeric timestamp `-1`, created
by `upload` with caller timestamp `-1`. -/
def tNeg : Table := (upload noFaults 50 "QmA" [] "i" "a" (.int (-1))).table

/-- Claim C10, counterexample: when the source's stored timestamp is itself
the number `-1`, `link` with the caller-supplied timestamp `-1` stores a
timestamp equal to `-1` in the destination row — so a `-1`-valued
timestamp can be set via `link` after all (through the copy, not through
the literal argument). -/
theorem link_sentinel_neg1_cex :
    lookupRow tNeg "a" = some ⟨.int (-1), "QmA"⟩ ∧
    lookupRow (link noFaults 100 tNeg "a" "b" (.int (-1))).table "b"
      = some ⟨.float (-1), "QmA"⟩ ∧
    tsIsNeg1 (.float (-1)) = true := ⟨rfl, by decide, by decide⟩

/-- Claim C10 (amended): in `link` a caller-supplied numeric timestamp equal
to `-1` never reaches the insert as supplied: it acts as the copy-source
sentinel and is replaced, before the insert, by `float` of the source
filename's stored timestamp. The destination row's timestamp therefore
equals the source's value — and differs from `-1` whenever the source's
value does — rather than the literal `-1` argument. -/
theorem link_sentinel_copies_source (now : ℚ) (t : Table) (src dst : String)
    (r : Row) (q : ℚ) (hsrc : lookupRow t src = some r)
    (hdst : lookupRow t dst = none) (hq : pyFloat r.ts = .ok q) :
    lookupRow (link noFaults now t src dst (.int (-1))).table dst
      = some ⟨.float q, r.cid⟩ ∧
    lookupRow (link noFaults now t src dst (.float (-1))).table dst
      = some ⟨.float q, r.cid⟩ ∧
    (q ≠ -1 → tsIsNeg1 (.float q) = false) := by
  refine ⟨?_, ?_, fun h => by simp [tsIsNeg1, h]⟩
  · simp [link, resolveTs, tsIsNeg1, get_timestamp, noFaults, hsrc, hq,
      get_ipfs_cid, insertIfAbsent, hdst, lookupRow]
  · simp [link, resolveTs, tsIsNeg1, get_timestamp, noFaults, hsrc, hq,
      get_ipfs_cid, insertIfAbsent, hdst, lookupRow]

/-- Witness for the amended C10 at the one-row table. -/
theorem link_sentinel_copies_source_witness :
    lookupRow tA "a" = some ⟨.strnum 1, "Qm1"⟩ ∧
    lookupRow tA "b" = none ∧
    pyFloat (TSVal.strnum 1) = .ok 1 ∧
    (lookupRow (link noFaults 9 tA "a" "b" (.int (-1))).table "b"
       = some ⟨.float 1, "Qm1"⟩ ∧
     lookupRow (link noFaults 9 tA "a" "b" (.float (-1))).table "b"
       = some ⟨.float 1, "Qm1"⟩ ∧
     ((1 : ℚ) ≠ -1 → tsIsNeg1 (.float 1) = false)) :=
  ⟨rfl, rfl, rfl,
    link_sentinel_copies_source 9 tA "a" "b" ⟨.strnum 1, "Qm1"⟩ 1 rfl rfl rfl⟩

end IpfsIo
